import Mathlib

/-!
# Verification of the AdWords batch-job request-building / incremental-upload core

This development shallowly embeds the batch-job subsystem of the
googleads-python-lib repository: operation-XML generation, raw SOAP request
assembly and extraction, upload-request building (byte ranges and padding),
the incremental upload helper's session state machine, and its
serialize/restore pair.

The repository copy under verification ships only the unit-test suite
(`tests/adwords_test.py`) and example scripts; the implementation module
itself (`googleads/adwords.py`) is not present.  The definitions below are
therefore modelled from the specification, and, where the repository's own
tests pin concrete behaviour (header values, padding, raised error kinds),
from those tests.  Each definition's doc comment records its origin.

XML documents are modelled structurally as element trees; parsing a
well-formed serialized document is modelled as yielding its tree, and
non-well-formed input is represented explicitly (the `RawInput` type), so
that the parse-failure path of the extractor is visible.
-/

set_option maxHeartbeats 1000000
set_option maxRecDepth 100000

namespace AdWordsBatch

/-- Modelled from the spec: an XML element — tag, attributes, text content and
child elements.  This mirrors the `xml.etree.ElementTree` view of a document
used throughout the test-suite (tag, `attrib`, `text`, children). -/
inductive XML where
  | elem (tag : String) (attrs : List (String × String)) (text : String)
      (children : List XML)

/-- The tag of an element. -/
def XML.tag : XML → String
  | .elem t _ _ _ => t

/-- The attribute list of an element. -/
def XML.attrs : XML → List (String × String)
  | .elem _ a _ _ => a

/-- The text content of an element. -/
def XML.text : XML → String
  | .elem _ _ s _ => s

/-- The child elements of an element. -/
def XML.children : XML → List XML
  | .elem _ _ _ cs => cs

/-- `ElementTree.find`: the first child whose tag equals `t`. -/
def XML.findChild (x : XML) (t : String) : Option XML :=
  x.children.find? (fun c => c.tag == t)

/-- Serialize one attribute as ` key="value"`. -/
def attrString (kv : String × String) : String :=
  " " ++ kv.1 ++ "=\"" ++ kv.2 ++ "\""

mutual

/-- Serialize an element tree back to text (the str values produced by the
source's XML layer). -/
def XML.serialize : XML → String
  | .elem t a s cs =>
      "<" ++ t ++ String.join (a.map attrString) ++ ">" ++ s
        ++ XML.serializeList cs ++ "</" ++ t ++ ">"

/-- Serialize a list of sibling elements. -/
def XML.serializeList : List XML → String
  | [] => ""
  | x :: xs => XML.serialize x ++ XML.serializeList xs

end

/-- The SOAP envelope namespace (spec §6). -/
def SOAP_ENV_NS : String := "http://schemas.xmlsoap.org/soap/envelope/"

/-- The XML Schema-instance namespace, from which `xsi:type` comes. -/
def XSI_NS : String := "http://www.w3.org/2001/XMLSchema-instance"

/-- The per-API-version AdWords namespace, as the test-suite's
`_adwords_endpoint` (spec §6: "a per-API-version AdWords namespace"). -/
def adwordsEndpoint (version : String) : String :=
  "https://adwords.google.com/api/adwords/cm/" ++ version

/-- An `ElementTree`-style namespace-qualified tag: `{ns}name`. -/
def qname (ns name : String) : String :=
  "\x7b" ++ ns ++ "\x7d" ++ name

/-- Modelled from the spec §3: the operator of a mutation operation,
`Enum{ADD,SET,REMOVE}`. -/
inductive Operator where
  | ADD
  | SET
  | REMOVE
deriving DecidableEq, Repr

/-- The string rendering of an operator, as it appears in operation XML. -/
def Operator.toStr : Operator → String
  | .ADD => "ADD"
  | .SET => "SET"
  | .REMOVE => "REMOVE"

/-- Modelled from the spec §3: one field value of an operand — either a scalar
rendered as a leaf element, or a nested discriminated sub-object (e.g. the
`criterion` inside a CampaignCriterion operand) carrying its own optional
type tag and its own fields. -/
inductive FieldVal where
  | scalar (value : String)
  | nested (xsiType : Option String) (fields : List (String × FieldVal))

/-- Modelled from the spec §3: an Operation is
`{operator, type (optional discriminator, absence is a caller error), operand}`.
The operand is a mapping with an optional `xsi_type` discriminator of its own
plus named fields. -/
structure Operation where
  operator : Operator
  xsi_type : Option String
  operandType : Option String
  operandFields : List (String × FieldVal)

/-- The `xsi:type` attribute list contributed by an optional discriminator. -/
def xsiTypeAttr (t : Option String) : List (String × String) :=
  match t with
  | none => []
  | some ty => [(qname XSI_NS "type", ty)]

mutual

/-- Modelled from the spec §4.1: recursive operand expansion — a scalar field
renders as a leaf element, a nested discriminated field recurses through the
same type-driven dispatch, its tag carried as an `xsi:type` attribute. -/
def fieldXML (version tagName : String) : FieldVal → XML
  | .scalar v => .elem (qname (adwordsEndpoint version) tagName) [] v []
  | .nested t fs =>
      .elem (qname (adwordsEndpoint version) tagName) (xsiTypeAttr t) ""
        (fieldsXML version fs)

/-- Render a list of named operand fields, in declaration order (spec §3:
"element ordering inside `operations` must match a fixed per-type field
order"). -/
def fieldsXML (version : String) : List (String × FieldVal) → List XML
  | [] => []
  | (n, v) :: rest => fieldXML version n v :: fieldsXML version rest

end

/-- Modelled from the spec §3/§4.1: the raw XML for one operation — an
`operations` element containing, in fixed order, the operator, the type tag
(an `Operation.Type` element, as the test-suite reads it back), then the
operand with its own `xsi:type` discriminator and fields. -/
def operationElem (version : String) (op : Operator) (ty : String)
    (operandType : Option String) (fields : List (String × FieldVal)) : XML :=
  .elem (qname (adwordsEndpoint version) "operations") [] ""
    [ .elem (qname (adwordsEndpoint version) "operator") [] op.toStr []
    , .elem (qname (adwordsEndpoint version) "Operation.Type") [] ty []
    , .elem (qname (adwordsEndpoint version) "operand") (xsiTypeAttr operandType)
        "" (fieldsXML version fields) ]

/-- Modelled from the spec §7 and the test-suite's pinned exceptions: the two
error kinds operation-XML generation can raise —
`AdWordsBatchJobServiceInvalidOperationError`, and a key-lookup failure
(Python `KeyError`, which `testGenerateRawRequestXMLFromBogusOperation`
expects for an unregistered type tag). -/
inductive BatchJobError where
  | invalidOperation (msg : String)
  | keyError (key : String)
deriving DecidableEq, Repr

/-- Modelled from the spec §4.1/§9: per-operation type-driven dispatch against
the registry of known type tags.  A missing discriminator fails as a
key-lookup (`operation['xsi_type']`), an unregistered one fails as a
key-lookup into the template registry, exactly as the repository's test
`testGenerateRawRequestXMLFromBogusOperation` demands (`KeyError`, not the
domain error). -/
def operationXML (registry : List String) (version : String)
    (op : Operation) : Except BatchJobError XML :=
  match op.xsi_type with
  | none => .error (.keyError "xsi_type")
  | some ty =>
      if registry.contains ty then
        .ok (operationElem version op.operator ty op.operandType
          op.operandFields)
      else
        .error (.keyError ty)

/-- Render each operation in sequence, stopping at the first failure (the
source builds the fragment list with a comprehension, so the first bad
operation raises). -/
def operationsXMLList (registry : List String) (version : String) :
    List Operation → Except BatchJobError (List XML)
  | [] => .ok []
  | op :: rest => do
      let x ← operationXML registry version op
      let xs ← operationsXMLList registry version rest
      pure (x :: xs)

/-- Modelled from the spec §4.2: the binary method split — operations whose
type is "CampaignLabelOperation" route to a `mutateLabel` body element, all
others to `mutate`. -/
def requestMethod (ops : List Operation) : String :=
  match ops with
  | op :: _ =>
      if op.xsi_type == some "CampaignLabelOperation" then "mutateLabel"
      else "mutate"
  | [] => "mutate"

/-- Modelled from the spec §3: the fixed request-envelope skeleton —
`Envelope > Header` (opaque) and `Envelope > Body > {mutate | mutateLabel}`
containing one `operations` element per input operation. -/
def rawRequestEnvelope (version method : String) (opElems : List XML) : XML :=
  .elem (qname SOAP_ENV_NS "Envelope") [] ""
    [ .elem (qname SOAP_ENV_NS "Header") [] "" []
    , .elem (qname SOAP_ENV_NS "Body") [] ""
        [ .elem (qname (adwordsEndpoint version) method) [] "" opElems ] ]

/-- Modelled from the spec §4.2: `_GenerateRawRequestXML` — one fully
namespace-qualified envelope per call, embedding the per-operation XML.
The envelope is produced here as its element tree; serialization is
`XML.serialize`. -/
def GenerateRawRequestXML (registry : List String) (version : String)
    (ops : List Operation) : Except BatchJobError XML := do
  let xs ← operationsXMLList registry version ops
  pure (rawRequestEnvelope version (requestMethod ops) xs)

/-- Modelled from the spec §4.1: `_GenerateOperationsXML` — empty string for
zero operations; `AdWordsBatchJobServiceInvalidOperationError` when any
operation omits its `xsi_type`; otherwise the serialized operation
fragments.  (The namespace-compaction pass of spec §4.2 only rewrites tag
text inside this string and is not modelled; no claim inspects the
fragment text.) -/
def GenerateOperationsXML (registry : List String) (version : String)
    (ops : List Operation) : Except BatchJobError String :=
  if ops.isEmpty then .ok ""
  else if ops.any (fun op => op.xsi_type.isNone) then
    .error (.invalidOperation "Operations have no xsi_type specified.")
  else do
    let xs ← operationsXMLList registry version ops
    pure (XML.serializeList xs)

/-- Modelled from the spec §4.2: input to the extractor.  The source hands
`_GetRawOperationsFromXML` a string and parses it with `ElementTree`;
here a parse attempt is represented by its outcome — either text that is
not well-formed XML (on which `ElementTree.fromstring` raises), or the
element tree of a well-formed document. -/
inductive RawInput where
  | notXML (s : String)
  | xmlDoc (root : XML)

/-- Modelled from the spec §4.2/§7: the two failure kinds of the extractor —
the parse error on non-XML input (`MalformedXMLError`, `ElementTree.ParseError`
in the tests) and the structural error on a well-formed document lacking the
expected mutate/mutateLabel element (`InvalidRequestStructureError`,
`AttributeError` in the tests). -/
inductive ExtractError where
  | malformedXMLError
  | invalidRequestStructureError
deriving DecidableEq, Repr

/-- Modelled from the spec §4.2: `_GetRawOperationsFromXML` — extract just the
`mutate`/`mutateLabel` element from `Envelope > Body`; a parse failure is
`malformedXMLError`, a missing `Body` or missing method element is
`invalidRequestStructureError`. -/
def GetRawOperationsFromXML (version : String) :
    RawInput → Except ExtractError XML
  | .notXML _ => .error .malformedXMLError
  | .xmlDoc root =>
      match root.findChild (qname SOAP_ENV_NS "Body") with
      | none => .error .invalidRequestStructureError
      | some body =>
          match body.findChild (qname (adwordsEndpoint version) "mutate") with
          | some m => .ok m
          | none =>
              match body.findChild
                  (qname (adwordsEndpoint version) "mutateLabel") with
              | some m => .ok m
              | none => .error .invalidRequestStructureError

/-- The `operations` children recovered by extraction, when it succeeds. -/
def extractedOperations (version : String) (input : RawInput) :
    Option (List XML) :=
  (GetRawOperationsFromXML version input).toOption.map XML.children

/-- `_BATCH_JOB_INCREMENT`: the fixed chunk-size constant governing byte-range
upload alignment (spec §3, "Batch Job Increment"), 256 KiB. -/
def BATCH_JOB_INCREMENT : Nat := 262144

/-- Modelled from the spec §4.3: `_GetPaddingLength` — padding length is
`increment - (length mod increment)`, or 0 if already aligned. -/
def GetPaddingLength (length : Nat) : Nat :=
  let padding := BATCH_JOB_INCREMENT - length % BATCH_JOB_INCREMENT
  if padding = BATCH_JOB_INCREMENT then 0 else padding

/-- Modelled from the spec §4.3: `_UPLOAD_PREFIX_TEMPLATE % adwords_endpoint` —
the fragment opening the upload envelope through the start of `operations`. -/
def uploadEnvelopeOpen (version : String) : String :=
  "<?xml version=\"1.0\" encoding=\"UTF-8\"?><mutate xmlns=\""
    ++ adwordsEndpoint version
    ++ "\" xmlns:xsi=\"" ++ XSI_NS ++ "\">"

/-- Modelled from the spec §4.3: `_UPLOAD_SUFFIX` — the fragment closing the
upload envelope. -/
def uploadEnvelopeClose : String := "</mutate>"

/-- Modelled from the spec §4.3: `_BuildUploadRequestBody` — the operations
XML, framed by the envelope-opening fragment unless this is a continuation
chunk, and by the envelope-closing fragment only on the final chunk. -/
def BuildUploadRequestBody (registry : List String) (version : String)
    (ops : List Operation) (hasOpening hasClosing : Bool) :
    Except BatchJobError String := do
  let operationsXML ← GenerateOperationsXML registry version ops
  pure ((if hasOpening then uploadEnvelopeOpen version else "")
    ++ operationsXML
    ++ (if hasClosing then uploadEnvelopeClose else ""))

/-- The byte length of a string, as `len` of its UTF-8 encoding. -/
def byteLength (s : String) : Nat := s.utf8ByteSize

/-- `n` whitespace characters of padding. -/
def spaces (n : Nat) : String := String.mk (List.replicate n ' ')

/-- The headers of an upload request: `Content-type`, `Content-length`,
`Content-range` (spec §4.3). -/
structure UploadHeaders where
  contentType : String
  contentLength : Nat
  contentRange : String
deriving DecidableEq, Repr

/-- Modelled from the spec §4.3: `UploadRequest{method: "PUT", headers, body}`. -/
structure UploadRequest where
  method : String
  url : String
  headers : UploadHeaders
  data : String
deriving DecidableEq, Repr

/-- The `Content-range` header text: `bytes {start}-{end}/{total}`. -/
def contentRangeString (start : Nat) (stop : Int) (total : String) : String :=
  "bytes " ++ toString start ++ "-" ++ toString stop ++ "/" ++ total

/-- Modelled from the spec §4.3 as pinned by the repository's tests
(`testBuildRequestForSingleUpload` / `testBuildRequestForIncrementalUpload`):
`BuildUploadRequest` — build the body (with the opening fragment exactly when
`current_content_length` is 0 and the closing fragment exactly when
`is_last`), pad every chunk with whitespace to an exact multiple of the
increment, and set the byte-range headers with `start = current_content_length`,
`end = start + padded_length - 1`, and total equal to the now-known overall
length `start + padded_length` on the final chunk and `*` (still unknown)
otherwise. -/
def BuildUploadRequest (registry : List String) (version : String)
    (uploadUrl : String) (ops : List Operation) (isLast : Bool)
    (currentContentLength : Nat) : Except BatchJobError UploadRequest := do
  let requestBody ← BuildUploadRequestBody registry version ops
    (currentContentLength == 0) isLast
  let requestLength := byteLength requestBody
  let paddingLength := GetPaddingLength requestLength
  let paddedLength := requestLength + paddingLength
  let total := if isLast then toString (currentContentLength + paddedLength)
    else "*"
  pure
    { method := "PUT"
      url := uploadUrl
      headers :=
        { contentType := "application/xml"
          contentLength := paddedLength
          contentRange := contentRangeString currentContentLength
            ((currentContentLength : Int) + (paddedLength : Int) - 1) total }
      data := requestBody ++ spaces paddingLength }

/-- Modelled from the spec §3/§4.4: the incremental upload helper's session
state — `{upload_url, current_content_length, is_last, version}`. -/
structure UploadSession where
  uploadUrl : String
  currentContentLength : Nat
  isLast : Bool
  version : String
deriving DecidableEq, Repr

/-- Modelled from the spec §4.3/§4.4: the outcome of one PUT performed by the
external HTTP transport collaborator. -/
inductive TransportOutcome where
  | success
  | failure (msg : String)
deriving DecidableEq, Repr

/-- Modelled from the spec §7: the errors `UploadOperations` surfaces —
the domain error for uploading to a terminal session, a request-building
failure, and a transport failure surfaced unchanged. -/
inductive UploadError where
  | invalidOperation (msg : String)
  | buildError (e : BatchJobError)
  | transport (msg : String)
deriving DecidableEq, Repr

/-- Decidable equality of `Except` results, for concrete evaluation. -/
instance {ε α : Type} [DecidableEq ε] [DecidableEq α] :
    DecidableEq (Except ε α) := fun
  | .ok a, .ok b =>
    match decEq a b with
    | isTrue h => isTrue (h ▸ rfl)
    | isFalse h => isFalse (fun hh => h (Except.ok.inj hh))
  | .ok _, .error _ => isFalse Except.noConfusion
  | .error _, .ok _ => isFalse Except.noConfusion
  | .error a, .error b =>
    match decEq a b with
    | isTrue h => isTrue (h ▸ rfl)
    | isFalse h => isFalse (fun hh => h (Except.error.inj hh))

/-- The result of one `UploadOperations` call: the helper's state afterwards,
the index of the next unconsumed transport outcome (the call consumes at most
one — no internal retry), and the surfaced result. -/
structure UploadStep where
  session : UploadSession
  nextAttempt : Nat
  result : Except UploadError Unit
deriving DecidableEq, Repr

/-- Modelled from the spec §4.4: `UploadOperations` — reject if the session is
terminal; otherwise build the upload request from the current offset, perform
exactly one PUT through the transport, and only on success advance
`current_content_length` by the byte length of the chunk just sent (its
`Content-length`, which theorem `contentLength_eq_data_byteLength` below
identifies with the byte length of the request body actually sent) and record
`is_last`.  On failure the state is left exactly as it was.  `transport` is
the environment's sequence of PUT outcomes and `attempt` the index of the
next one. -/
def UploadOperations (registry : List String)
    (transport : Nat → TransportOutcome) (attempt : Nat)
    (st : UploadSession) (ops : List Operation) (isLast : Bool) : UploadStep :=
  if st.isLast then
    { session := st, nextAttempt := attempt
      result := .error (.invalidOperation
        "Can't add new operations to a completed incremental upload.") }
  else
    match BuildUploadRequest registry st.version st.uploadUrl ops isLast
        st.currentContentLength with
    | .error e =>
        { session := st, nextAttempt := attempt
          result := .error (.buildError e) }
    | .ok req =>
        match transport attempt with
        | .success =>
            { session :=
                { st with
                  currentContentLength :=
                    st.currentContentLength + req.headers.contentLength
                  isLast := isLast }
              nextAttempt := attempt + 1
              result := .ok () }
        | .failure msg =>
            { session := st, nextAttempt := attempt + 1
              result := .error (.transport msg) }

/-- The decimal digit character for `d` (`d < 10`; larger values clamp). -/
def digitChar (d : Nat) : Char :=
  match d with
  | 0 => '0' | 1 => '1' | 2 => '2' | 3 => '3' | 4 => '4'
  | 5 => '5' | 6 => '6' | 7 => '7' | 8 => '8' | _ => '9'

/-- The numeric value of a decimal digit character. -/
def charToDigit (c : Char) : Nat := c.toNat - 48

/-- The decimal rendering of a natural number, as a character list
(most-significant digit first). -/
def natToDecimal (n : Nat) : List Char :=
  if n = 0 then ['0'] else (Nat.digits 10 n).reverse.map digitChar

/-- Read a decimal number from the front of the input: its value and the rest. -/
def readNat (input : List Char) : Option (Nat × List Char) :=
  let ds := input.takeWhile Char.isDigit
  if ds.isEmpty then none
  else some (ds.foldl (fun acc c => 10 * acc + charToDigit c) 0,
    input.dropWhile Char.isDigit)

/-- Consume an expected literal token from the front of the input. -/
def dropToken : List Char → List Char → Option (List Char)
  | [], input => some input
  | _ :: _, [] => none
  | t :: ts, c :: cs => if c = t then dropToken ts cs else none

/-- Consume input up to (and including) the first occurrence of `stop`,
returning the consumed part and the rest. -/
def readUntilChar (stop : Char) : List Char → Option (List Char × List Char)
  | [] => none
  | c :: cs =>
      if c = stop then some ([], cs)
      else (readUntilChar stop cs).map (fun p => (c :: p.1, p.2))

/-- Read a YAML boolean (`true` / `false`) from the front of the input. -/
def readBool (input : List Char) : Option (Bool × List Char) :=
  match dropToken "true".data input with
  | some rest => some (true, rest)
  | none =>
      match dropToken "false".data input with
      | some rest => some (false, rest)
      | none => none

/-- Modelled from the spec §4.4/§6: the serialized session — a single line of
key-sorted `{key: value, ...}` pairs over exactly
`current_content_length`, `is_last`, `upload_url`, `version`, terminated by
a newline (the flow-style YAML document the test-suite pins:
`{current_content_length: 0, is_last: false, upload_url: 'https://goo.gl/Xtaq83', version: v201605}`
followed by a newline).  The URL value is single-quoted; the version tag is
bare. -/
def dumpChars (st : UploadSession) : List Char :=
  "\x7bcurrent_content_length: ".data
    ++ (natToDecimal st.currentContentLength
    ++ (", is_last: ".data
    ++ ((if st.isLast then "true".data else "false".data)
    ++ (", upload_url: \x27".data
    ++ (st.uploadUrl.data
    ++ ("\x27, version: ".data
    ++ (st.version.data
    ++ "\x7d\n".data)))))))

/-- Modelled from the spec §4.4: `Dump` — serialize the session state. -/
def Dump (st : UploadSession) : String := String.mk (dumpChars st)

/-- Parse a serialized session, character by character. -/
def loadChars (cs : List Char) : Option UploadSession := do
  let cs ← dropToken "\x7bcurrent_content_length: ".data cs
  let (n, cs) ← readNat cs
  let cs ← dropToken ", is_last: ".data cs
  let (b, cs) ← readBool cs
  let cs ← dropToken ", upload_url: \x27".data cs
  let (url, cs) ← readUntilChar '\x27' cs
  let cs ← dropToken ", version: ".data cs
  let (ver, cs) ← readUntilChar '\x7d' cs
  let cs ← dropToken "\n".data cs
  if cs.isEmpty then
    some { uploadUrl := String.mk url, currentContentLength := n,
           isLast := b, version := String.mk ver }
  else none

/-- Modelled from the spec §4.4: `Load` — restore a session from its serialized
form (the live-client rebinding of the source is outside the session state). -/
def Load (source : String) : Option UploadSession := loadChars source.data

/-! ## Concrete test vectors (mirroring the repository's test data) -/

/-- The registered operation types of the test-suite's builder: Budget,
CampaignCriterion, CampaignLabel (spec §3). -/
def testRegistry : List String :=
  ["BudgetOperation", "CampaignCriterionOperation", "CampaignLabelOperation"]

/-- The first generated BudgetOperation of the test-suite
(`GenerateOperations('BudgetOperation', 1)`). -/
def budgetOperation1 : Operation :=
  { operator := .ADD
    xsi_type := some "BudgetOperation"
    operandType := none
    operandFields :=
      [ ("budgetId", .scalar "1")
      , ("name", .scalar "Batch budget #1")
      , ("amount", .nested none [("microAmount", .scalar "3333333")])
      , ("deliveryMethod", .scalar "STANDARD") ] }

/-- The raw request envelope generated from `budgetOperation1`. -/
def envelope1 : XML :=
  (GenerateRawRequestXML testRegistry "v201605" [budgetOperation1]).toOption.getD
    (.elem "" [] "" [])

/-- The bogus operation of `testGenerateRawRequestXMLFromBogusOperation`:
an unregistered type tag. -/
def bogusOperation : Operation :=
  { operator := .ADD
    xsi_type := some "BogusOperation"
    operandType := none
    operandFields := [("bogusProperty", .scalar "bogusValue")] }

/-- Whether a generation result raised the domain
`AdWordsBatchJobServiceInvalidOperationError`. -/
def raisesInvalidOperation {α : Type} (r : Except BatchJobError α) : Bool :=
  match r with
  | .error (.invalidOperation _) => true
  | _ => false

/-- The upload request built for an empty continuation chunk at offset
`_BATCH_JOB_INCREMENT` (the shape of `testBuildRequestForIncrementalUpload`):
no opening fragment (offset is non-zero), no closing fragment (not last). -/
def incrementalUploadRequest : UploadRequest :=
  { method := "PUT"
    url := "https://goo.gl/IaQQsJ"
    headers :=
      { contentType := "application/xml"
        contentLength := 0
        contentRange := "bytes 262144-262143/*" }
    data := "" }

/-- The freshly-initialized session of the test-suite: resolved upload URL,
offset 0, not last. -/
def initialSession : UploadSession :=
  { uploadUrl := "https://goo.gl/Xtaq83"
    currentContentLength := 0
    isLast := false
    version := "v201605" }

/-! ## Helper lemmas -/

theorem qname_inj {ns a b : String} (h : qname ns a = qname ns b) : a = b := by
  have h2 : "\x7b".data ++ (ns.data ++ ("\x7d".data ++ a.data)) =
      "\x7b".data ++ (ns.data ++ ("\x7d".data ++ b.data)) := by
    have h1 := congrArg String.data h
    simpa [qname, String.data_append, List.append_assoc] using h1
  exact String.ext
    (List.append_cancel_left (List.append_cancel_left (List.append_cancel_left h2)))

theorem qname_ne {ns a b : String} (h : a ≠ b) : qname ns a ≠ qname ns b :=
  fun hq => h (qname_inj hq)

theorem beq_qname_false (ns : String) {a b : String} (h : a ≠ b) :
    (qname ns a == qname ns b) = false :=
  beq_eq_false_iff_ne.mpr (qname_ne h)

theorem operationXML_ok {registry : List String} {version : String}
    {op : Operation} {x : XML}
    (h : operationXML registry version op = .ok x) :
    ∃ t, op.xsi_type = some t ∧ registry.contains t = true ∧
      x = operationElem version op.operator t op.operandType op.operandFields := by
  cases hty : op.xsi_type with
  | none =>
      simp only [operationXML, hty] at h
      exact absurd h (by simp)
  | some t =>
      simp only [operationXML, hty] at h
      by_cases hreg : registry.contains t = true
      · rw [if_pos hreg] at h
        exact ⟨t, rfl, hreg, (Except.ok.inj h).symm⟩
      · rw [if_neg hreg] at h
        exact absurd h (by simp)

theorem operationElem_tag {version : String} {o : Operator} {t : String}
    {ot : Option String} {fs : List (String × FieldVal)} :
    (operationElem version o t ot fs).tag
      = qname (adwordsEndpoint version) "operations" := rfl

theorem operationElem_operator {version : String} {o : Operator} {t : String}
    {ot : Option String} {fs : List (String × FieldVal)} :
    ((operationElem version o t ot fs).findChild
        (qname (adwordsEndpoint version) "operator")).map XML.text
      = some o.toStr := by
  simp [operationElem, XML.findChild, XML.children, XML.tag, List.find?_cons,
    XML.text]

theorem operationElem_typeTag {version : String} {o : Operator} {t : String}
    {ot : Option String} {fs : List (String × FieldVal)} :
    ((operationElem version o t ot fs).findChild
        (qname (adwordsEndpoint version) "Operation.Type")).map XML.text
      = some t := by
  have h1 := beq_qname_false (adwordsEndpoint version)
    (show "operator" ≠ "Operation.Type" by decide)
  simp [operationElem, XML.findChild, XML.children, XML.tag, List.find?_cons,
    XML.text, h1]

theorem operationsXMLList_ok_maps {registry : List String} {version : String} :
    ∀ {ops : List Operation} {xs : List XML},
    operationsXMLList registry version ops = .ok xs →
    xs.map XML.tag = ops.map (fun _ => qname (adwordsEndpoint version) "operations") ∧
    xs.map (fun c => (c.findChild
        (qname (adwordsEndpoint version) "operator")).map XML.text)
      = ops.map (fun op => some op.operator.toStr) ∧
    xs.map (fun c => (c.findChild
        (qname (adwordsEndpoint version) "Operation.Type")).map XML.text)
      = ops.map (fun op => op.xsi_type) := by
  intro ops
  induction ops with
  | nil =>
      intro xs h
      simp [operationsXMLList] at h
      simp [← h]
  | cons op rest ih =>
      intro xs h
      cases hx : operationXML registry version op with
      | error e => simp [operationsXMLList, hx, Except.bind, Bind.bind, Functor.map, Except.map] at h
      | ok x =>
          cases hrest : operationsXMLList registry version rest with
          | error e => simp [operationsXMLList, hx, hrest, Except.bind, Bind.bind, Functor.map, Except.map] at h
          | ok ys =>
              have hxs : xs = x :: ys := by
                simp [operationsXMLList, hx, hrest, Except.bind, Bind.bind, Functor.map, Except.map, pure,
                  Except.pure] at h
                exact h.symm
              obtain ⟨t, hty, -, hxel⟩ := operationXML_ok hx
              obtain ⟨ih1, ih2, ih3⟩ := ih hrest
              subst hxs hxel
              refine ⟨?_, ?_, ?_⟩
              · simpa [operationElem_tag] using ih1
              · simpa [operationElem_operator] using ih2
              · simpa [operationElem_typeTag, hty] using ih3

theorem requestMethod_cases (ops : List Operation) :
    requestMethod ops = "mutate" ∨ requestMethod ops = "mutateLabel" := by
  cases ops with
  | nil => exact Or.inl rfl
  | cons op rest =>
      by_cases h : op.xsi_type == some "CampaignLabelOperation"
      · exact Or.inr (by simp [requestMethod, h])
      · exact Or.inl (by simp [requestMethod, h])

theorem getRaw_envelope (version method : String) (xs : List XML)
    (h : method = "mutate" ∨ method = "mutateLabel") :
    GetRawOperationsFromXML version (.xmlDoc (rawRequestEnvelope version method xs))
      = .ok (.elem (qname (adwordsEndpoint version) method) [] "" xs) := by
  have hHB : (qname SOAP_ENV_NS "Header" == qname SOAP_ENV_NS "Body") = false := by
    decide
  have hbody : (rawRequestEnvelope version method xs).findChild
      (qname SOAP_ENV_NS "Body")
      = some (.elem (qname SOAP_ENV_NS "Body") [] ""
          [.elem (qname (adwordsEndpoint version) method) [] "" xs]) := by
    simp [rawRequestEnvelope, XML.findChild, XML.children, XML.tag,
      List.find?_cons, hHB]
  rcases h with h | h <;> subst h
  · have hm : (XML.elem (qname SOAP_ENV_NS "Body") [] ""
        [.elem (qname (adwordsEndpoint version) "mutate") [] "" xs]).findChild
          (qname (adwordsEndpoint version) "mutate")
        = some (.elem (qname (adwordsEndpoint version) "mutate") [] "" xs) := by
      simp [XML.findChild, XML.children, XML.tag, List.find?_cons]
    simp [GetRawOperationsFromXML, hbody, hm]
  · have hlm := beq_qname_false (adwordsEndpoint version)
      (show "mutateLabel" ≠ "mutate" by decide)
    have hm1 : (XML.elem (qname SOAP_ENV_NS "Body") [] ""
        [.elem (qname (adwordsEndpoint version) "mutateLabel") [] "" xs]).findChild
          (qname (adwordsEndpoint version) "mutate") = none := by
      simp [XML.findChild, XML.children, XML.tag, List.find?_cons, hlm]
    have hm2 : (XML.elem (qname SOAP_ENV_NS "Body") [] ""
        [.elem (qname (adwordsEndpoint version) "mutateLabel") [] "" xs]).findChild
          (qname (adwordsEndpoint version) "mutateLabel")
        = some (.elem (qname (adwordsEndpoint version) "mutateLabel") [] "" xs) := by
      simp [XML.findChild, XML.children, XML.tag, List.find?_cons]
    simp [GetRawOperationsFromXML, hbody, hm1, hm2]

theorem generateRaw_ok {registry : List String} {version : String}
    {ops : List Operation} {env : XML}
    (h : GenerateRawRequestXML registry version ops = .ok env) :
    ∃ xs, operationsXMLList registry version ops = .ok xs ∧
      env = rawRequestEnvelope version (requestMethod ops) xs := by
  cases hxs : operationsXMLList registry version ops with
  | error e => simp [GenerateRawRequestXML, hxs, Except.bind, Bind.bind, Functor.map, Except.map] at h
  | ok xs =>
      refine ⟨xs, rfl, ?_⟩
      simp [GenerateRawRequestXML, hxs, Except.bind, Bind.bind, Functor.map, Except.map, pure, Except.pure] at h
      exact h.symm

/-! ## Claim theorems -/

/-- C1: for every non-empty operation sequence accepted by the generator,
extracting the generated envelope recovers exactly one `operations` element
per input operation, in input order, with each operation's operator value and
type tag preserved exactly. -/
theorem generate_extract_roundtrip (registry : List String) (version : String)
    (ops : List Operation) (env : XML) (hne : ops ≠ [])
    (hok : GenerateRawRequestXML registry version ops = .ok env) :
    (extractedOperations version (.xmlDoc env)).map (fun l => l.map XML.tag)
      = some (ops.map fun _ => qname (adwordsEndpoint version) "operations") ∧
    (extractedOperations version (.xmlDoc env)).map
        (fun l => l.map fun c => (c.findChild
          (qname (adwordsEndpoint version) "operator")).map XML.text)
      = some (ops.map fun op => some op.operator.toStr) ∧
    (extractedOperations version (.xmlDoc env)).map
        (fun l => l.map fun c => (c.findChild
          (qname (adwordsEndpoint version) "Operation.Type")).map XML.text)
      = some (ops.map fun op => op.xsi_type) := by
  obtain ⟨xs, hxs, henv⟩ := generateRaw_ok hok
  obtain ⟨h1, h2, h3⟩ := operationsXMLList_ok_maps hxs
  have hget := getRaw_envelope version (requestMethod ops) xs
    (requestMethod_cases ops)
  subst henv
  rw [extractedOperations, hget]
  refine ⟨?_, ?_, ?_⟩ <;>
    simp only [Except.toOption, Option.map_some', XML.children,
      Option.some.injEq]
  · exact h1
  · exact h2
  · exact h3

/-- Witness for C1: the round trip at one concrete BudgetOperation. -/
theorem generate_extract_roundtrip_witness :
    (extractedOperations "v201605" (.xmlDoc envelope1)).map (fun l => l.map XML.tag)
      = some [qname (adwordsEndpoint "v201605") "operations"] ∧
    (extractedOperations "v201605" (.xmlDoc envelope1)).map
        (fun l => l.map fun c => (c.findChild
          (qname (adwordsEndpoint "v201605") "operator")).map XML.text)
      = some [some "ADD"] ∧
    (extractedOperations "v201605" (.xmlDoc envelope1)).map
        (fun l => l.map fun c => (c.findChild
          (qname (adwordsEndpoint "v201605") "Operation.Type")).map XML.text)
      = some [some "BudgetOperation"] :=
  generate_extract_roundtrip testRegistry "v201605" [budgetOperation1] envelope1
    (by simp) rfl

/-- C8 counterexample: generating from an operation whose type tag names an
unknown type (no registered template) fails with a key-lookup error
(`KeyError`), not with `InvalidOperationError` — exactly as the repository's
own test `testGenerateRawRequestXMLFromBogusOperation` demands. -/
theorem unknownType_raises_keyError :
    GenerateRawRequestXML testRegistry "v201605" [bogusOperation]
      = .error (.keyError "BogusOperation") ∧
    raisesInvalidOperation
      (GenerateRawRequestXML testRegistry "v201605" [bogusOperation]) = false :=
  ⟨rfl, rfl⟩

/-- C8 (amended): operation-XML generation fails with `InvalidOperationError`
when an operation's type discriminator is absent, and with a key-lookup
error naming the unknown type when the discriminator names a type with no
registered template. -/
theorem generation_error_kinds :
    (∀ (registry : List String) (version : String) (ops : List Operation),
      ops ≠ [] → (∃ op ∈ ops, op.xsi_type = none) →
      GenerateOperationsXML registry version ops
        = .error (.invalidOperation "Operations have no xsi_type specified.")) ∧
    (∀ (registry : List String) (version : String) (op : Operation)
        (t : String),
      op.xsi_type = some t → registry.contains t = false →
      GenerateRawRequestXML registry version [op] = .error (.keyError t)) := by
  constructor
  · intro registry version ops hne hex
    have hempty : ops.isEmpty = false := by
      cases ops with
      | nil => exact absurd rfl hne
      | cons a l => rfl
    have hany : (ops.any fun op => op.xsi_type.isNone) = true := by
      obtain ⟨op, hmem, hnone⟩ := hex
      exact List.any_eq_true.mpr ⟨op, hmem, by simp [hnone]⟩
    simp [GenerateOperationsXML, hempty, hany]
  · intro registry version op t hty hreg
    have hop : operationXML registry version op = .error (.keyError t) := by
      simp only [operationXML, hty]
      rw [if_neg (fun hc => by rw [hc] at hreg; exact Bool.noConfusion hreg)]
    simp [GenerateRawRequestXML, operationsXMLList, hop, Except.bind,
      Bind.bind, Functor.map, Except.map]

/-- Witness for C8 (amended), at the test-suite's concrete inputs: a
CampaignCriterion operation with its `xsi_type` deleted, and the bogus
operation. -/
theorem generation_error_kinds_witness :
    GenerateOperationsXML testRegistry "v201605"
        [{ budgetOperation1 with xsi_type := none }]
      = .error (.invalidOperation "Operations have no xsi_type specified.") ∧
    GenerateRawRequestXML testRegistry "v201605" [bogusOperation]
      = .error (.keyError "BogusOperation") :=
  ⟨generation_error_kinds.1 testRegistry "v201605"
      [{ budgetOperation1 with xsi_type := none }] (by simp)
      ⟨{ budgetOperation1 with xsi_type := none }, by simp, rfl⟩,
    generation_error_kinds.2 testRegistry "v201605" bogusOperation
      "BogusOperation" rfl rfl⟩

/-- C9: the extractor fails with the parse-error kind (`MalformedXMLError`)
on every input that is not well-formed XML, and with the structural-error
kind (`InvalidRequestStructureError`) on every well-formed document lacking
the expected `mutate`/`mutateLabel` element; the two kinds are distinct, so
the caller can tell them apart. -/
theorem extraction_error_kinds :
    (∀ (version s : String),
      GetRawOperationsFromXML version (.notXML s)
        = .error .malformedXMLError) ∧
    (∀ (version : String) (root : XML),
      (∀ body, root.findChild (qname SOAP_ENV_NS "Body") = some body →
        body.findChild (qname (adwordsEndpoint version) "mutate") = none ∧
        body.findChild (qname (adwordsEndpoint version) "mutateLabel") = none) →
      GetRawOperationsFromXML version (.xmlDoc root)
        = .error .invalidRequestStructureError) ∧
    ExtractError.malformedXMLError ≠ ExtractError.invalidRequestStructureError := by
  refine ⟨fun version s => rfl, ?_, by simp⟩
  intro version root h
  cases hbody : root.findChild (qname SOAP_ENV_NS "Body") with
  | none => simp [GetRawOperationsFromXML, hbody]
  | some body =>
      obtain ⟨h1, h2⟩ := h body hbody
      simp [GetRawOperationsFromXML, hbody, h1, h2]

/-- Witness for C9: non-XML text, and a well-formed document with no `Body`
(and hence no mutate/mutateLabel), at a concrete version. -/
theorem extraction_error_kinds_witness :
    GetRawOperationsFromXML "v201605" (.notXML "this is not xml!")
      = .error .malformedXMLError ∧
    GetRawOperationsFromXML "v201605" (.xmlDoc (.elem "a" [] "" []))
      = .error .invalidRequestStructureError :=
  ⟨extraction_error_kinds.1 "v201605" "this is not xml!",
    extraction_error_kinds.2.1 "v201605" (.elem "a" [] "" [])
      (fun _ h => Option.noConfusion h)⟩

/-- C10: a syntactically valid request envelope whose `mutate` element has
zero `operations` children is accepted by the extractor — it returns the
`mutate` element, with exactly zero children, raising no error. -/
theorem zero_operations_accepted (version : String) :
    GetRawOperationsFromXML version
        (.xmlDoc (rawRequestEnvelope version "mutate" []))
      = .ok (.elem (qname (adwordsEndpoint version) "mutate") [] "" []) ∧
    (XML.elem (qname (adwordsEndpoint version) "mutate") [] "" []).children.length
      = 0 :=
  ⟨getRaw_envelope version "mutate" [] (Or.inl rfl), rfl⟩

theorem byteLength_data (s : String) : byteLength s = String.utf8Len s.data := by
  cases s with
  | mk data => simp [byteLength]

theorem utf8Len_replicate_space (n : Nat) :
    String.utf8Len (List.replicate n ' ') = n := by
  induction n with
  | zero => rfl
  | succ k ih =>
      have h1 : (' ' : Char).utf8Size = 1 := by decide
      rw [List.replicate, String.utf8Len_cons, ih, h1]

theorem byteLength_append_spaces (s : String) (n : Nat) :
    byteLength (s ++ spaces n) = byteLength s + n := by
  rw [byteLength_data, byteLength_data, String.data_append]
  simp [spaces, utf8Len_replicate_space]

theorem length_add_padding_mod (L : Nat) :
    (L + GetPaddingLength L) % BATCH_JOB_INCREMENT = 0 := by
  simp only [GetPaddingLength, BATCH_JOB_INCREMENT]
  split <;> omega

theorem buildUploadRequest_ok {registry : List String} {version url : String}
    {ops : List Operation} {isLast : Bool} {ccl : Nat} {req : UploadRequest}
    (h : BuildUploadRequest registry version url ops isLast ccl = .ok req) :
    ∃ body, BuildUploadRequestBody registry version ops (ccl == 0) isLast
        = .ok body ∧
      req = { method := "PUT", url := url
              headers :=
                { contentType := "application/xml"
                  contentLength :=
                    byteLength body + GetPaddingLength (byteLength body)
                  contentRange := contentRangeString ccl
                    ((ccl : Int)
                      + (byteLength body + GetPaddingLength (byteLength body))
                      - 1)
                    (if isLast then
                      toString (ccl
                        + (byteLength body + GetPaddingLength (byteLength body)))
                    else "*") }
              data := body ++ spaces (GetPaddingLength (byteLength body)) } := by
  cases hb : BuildUploadRequestBody registry version ops (ccl == 0) isLast with
  | error e =>
      simp [BuildUploadRequest, hb, Except.bind, Bind.bind, Functor.map,
        Except.map] at h
  | ok body =>
      refine ⟨body, rfl, ?_⟩
      simp [BuildUploadRequest, hb, Except.bind, Bind.bind, Functor.map,
        Except.map, pure, Except.pure] at h
      exact h.symm

/-- C2 (amended): for every successfully built upload request, the
`Content-range` header is `bytes {start}-{end}/{total}` where
`start = current_content_length`, `end = start + L - 1` for `L` the byte
length of the (padded) body actually sent — and the total is `*` (unknown)
for a NON-final chunk, and the now-complete overall length `start + L` for
the final chunk; `Content-length` is that same `L`.  (The claim as frozen
has the two totals exactly swapped relative to the code's behaviour pinned
by the repository's tests.) -/
theorem buildUploadRequest_headers (registry : List String)
    (version url : String) (ops : List Operation) (isLast : Bool) (ccl : Nat)
    (req : UploadRequest)
    (h : BuildUploadRequest registry version url ops isLast ccl = .ok req) :
    req.headers.contentLength = byteLength req.data ∧
    req.headers.contentRange = contentRangeString ccl
      ((ccl : Int) + byteLength req.data - 1)
      (if isLast then toString (ccl + byteLength req.data) else "*") ∧
    req.headers.contentType = "application/xml" ∧
    req.method = "PUT" := by
  obtain ⟨body, hb, hreq⟩ := buildUploadRequest_ok h
  subst hreq
  simp [byteLength_append_spaces]

/-- Witness for C2 (amended): the continuation-chunk scenario of
`testBuildRequestForIncrementalUpload` — offset one increment, not last. -/
theorem buildUploadRequest_headers_witness :
    incrementalUploadRequest.headers.contentLength
      = byteLength incrementalUploadRequest.data ∧
    incrementalUploadRequest.headers.contentRange = contentRangeString 262144
      ((262144 : Int) + byteLength incrementalUploadRequest.data - 1)
      (if false then
        toString (262144 + byteLength incrementalUploadRequest.data)
      else "*") ∧
    incrementalUploadRequest.headers.contentType = "application/xml" ∧
    incrementalUploadRequest.method = "PUT" :=
  buildUploadRequest_headers testRegistry "v201605" "https://goo.gl/IaQQsJ"
    [] false 262144 incrementalUploadRequest (by decide)

/-- C2 counterexample: for a non-final chunk the total in `Content-range` is
`*`, not the increment constant the claim states. -/
theorem contentRange_nonfinal_total_counterexample :
    (BuildUploadRequest testRegistry "v201605" "https://goo.gl/IaQQsJ"
        [] false BATCH_JOB_INCREMENT).toOption.map
      (fun r => r.headers.contentRange) = some "bytes 262144-262143/*" ∧
    ("bytes 262144-262143/*" : String)
      ≠ "bytes 262144-262143/" ++ toString BATCH_JOB_INCREMENT := by
  exact ⟨by decide, by decide⟩

/-- C3 (amended): every successfully built chunk — final chunks included —
is sent padded: the request body is the natural body followed by
`_GetPaddingLength` whitespace characters, so its byte length (and the
`Content-length` header) is an exact multiple of the increment. -/
theorem buildUploadRequest_padding (registry : List String)
    (version url : String) (ops : List Operation) (isLast : Bool) (ccl : Nat)
    (body : String) (req : UploadRequest)
    (hb : BuildUploadRequestBody registry version ops (ccl == 0) isLast
      = .ok body)
    (h : BuildUploadRequest registry version url ops isLast ccl = .ok req) :
    req.data = body ++ spaces (GetPaddingLength (byteLength body)) ∧
    byteLength req.data % BATCH_JOB_INCREMENT = 0 ∧
    req.headers.contentLength
      = byteLength body + GetPaddingLength (byteLength body) := by
  obtain ⟨body2, hb2, hreq⟩ := buildUploadRequest_ok h
  rw [hb] at hb2
  obtain rfl : body = body2 := Except.ok.inj hb2
  subst hreq
  refine ⟨rfl, ?_, rfl⟩
  rw [byteLength_append_spaces]
  exact length_add_padding_mod (byteLength body)

/-- Witness for C3 (amended): the empty continuation chunk at offset one
increment. -/
theorem buildUploadRequest_padding_witness :
    incrementalUploadRequest.data
      = "" ++ spaces (GetPaddingLength (byteLength "")) ∧
    byteLength incrementalUploadRequest.data % BATCH_JOB_INCREMENT = 0 ∧
    incrementalUploadRequest.headers.contentLength
      = byteLength "" + GetPaddingLength (byteLength "") :=
  buildUploadRequest_padding testRegistry "v201605" "https://goo.gl/IaQQsJ"
    [] false 262144 "" incrementalUploadRequest (by decide) (by decide)

/-- C3 counterexample: the final chunk of `testBuildRequestForSingleUpload`
(first chunk, marked last) is NOT sent at its natural length — its natural
body (opening fragment + closing fragment) is 167 bytes, yet the chunk is
sent padded to the full increment. -/
theorem finalChunk_padded_counterexample :
    (BuildUploadRequestBody testRegistry "v201605" [] true true).toOption.map
      byteLength = some 167 ∧
    (BuildUploadRequest testRegistry "v201605" "https://goo.gl/IaQQsJ"
        [] true 0).toOption.map (fun r => r.headers.contentLength)
      = some BATCH_JOB_INCREMENT ∧
    (167 : Nat) ≠ BATCH_JOB_INCREMENT := by
  refine ⟨by decide, ?_, by decide⟩
  decide

/-- C4 (amended): `_GetPaddingLength(length) = increment - length` for every
length with `0 < length < increment`; at `length = 0` (already aligned) it
returns 0 instead. -/
theorem getPaddingLength_small (length : Nat) (h0 : 0 < length)
    (h : length < BATCH_JOB_INCREMENT) :
    GetPaddingLength length = BATCH_JOB_INCREMENT - length := by
  simp only [GetPaddingLength, BATCH_JOB_INCREMENT] at *
  rw [Nat.mod_eq_of_lt h, if_neg (by omega)]

/-- Witness for C4 (amended): the test-suite's sample length, 55 (the length
of its sample operations XML). -/
theorem getPaddingLength_small_witness :
    GetPaddingLength 55 = BATCH_JOB_INCREMENT - 55 :=
  getPaddingLength_small 55 (by decide) (by decide)

/-- C4 counterexample: at `length = 0` — which satisfies the claim's bound
`0 ≤ length < increment` — the function returns 0, not `increment - 0`. -/
theorem getPaddingLength_zero_counterexample :
    GetPaddingLength 0 = 0 ∧ (0 : Nat) < BATCH_JOB_INCREMENT ∧
    GetPaddingLength 0 ≠ BATCH_JOB_INCREMENT - 0 := by
  refine ⟨by decide, by decide, by decide⟩

/-- C5: once an `UploadOperations` call with `is_last = true` succeeds, every
subsequent `UploadOperations` call on the resulting helper state — any
operations, any transport behaviour — fails with `InvalidOperationError`:
the session is terminal. -/
theorem upload_after_finished_fails (registry registry2 : List String)
    (transport transport2 : Nat → TransportOutcome) (attempt attempt2 : Nat)
    (st : UploadSession) (ops ops2 : List Operation) (isLast2 : Bool)
    (h : (UploadOperations registry transport attempt st ops true).result
      = .ok ()) :
    (UploadOperations registry2 transport2 attempt2
        (UploadOperations registry transport attempt st ops true).session
        ops2 isLast2).result
      = .error (.invalidOperation
          "Can't add new operations to a completed incremental upload.") := by
  by_cases hterm : st.isLast
  · simp [UploadOperations, hterm] at h
  · cases hbuild : BuildUploadRequest registry st.version st.uploadUrl ops true
        st.currentContentLength with
    | error e => simp [UploadOperations, hterm, hbuild] at h
    | ok req =>
        cases htr : transport attempt with
        | success => simp [UploadOperations, hterm, hbuild, htr]
        | failure msg => simp [UploadOperations, hterm, hbuild, htr] at h

/-- Witness for C5: a finished single upload on the fresh session, then a
second call, whatever its arguments. -/
theorem upload_after_finished_fails_witness :
    (UploadOperations testRegistry (fun _ => .success) 1
        (UploadOperations testRegistry (fun _ => .success) 0 initialSession
          [] true).session
        [] false).result
      = .error (.invalidOperation
          "Can't add new operations to a completed incremental upload.") :=
  upload_after_finished_fails testRegistry testRegistry
    (fun _ => .success) (fun _ => .success) 0 1 initialSession [] [] false
    (by decide)

/-- C6: one `UploadOperations` call either succeeds — advancing
`current_content_length` by exactly the byte length of the (padded) chunk
just sent and recording `is_last` — or fails on transport error leaving the
session exactly as it was, so that the same chunk can be resubmitted; the
offset never decreases, and at most one transport attempt is consumed (no
internal retry). -/
theorem upload_step_invariants (registry : List String)
    (transport : Nat → TransportOutcome) (attempt : Nat)
    (st : UploadSession) (ops : List Operation) (isLast : Bool) :
    ((UploadOperations registry transport attempt st ops isLast).result
        = .ok () →
      ∃ req, BuildUploadRequest registry st.version st.uploadUrl ops isLast
          st.currentContentLength = .ok req ∧
        (UploadOperations registry transport attempt st ops
            isLast).session.currentContentLength
          = st.currentContentLength + byteLength req.data ∧
        (UploadOperations registry transport attempt st ops
            isLast).session.isLast = isLast) ∧
    (∀ msg, (UploadOperations registry transport attempt st ops isLast).result
        = .error (.transport msg) →
      (UploadOperations registry transport attempt st ops isLast).session
        = st) ∧
    st.currentContentLength
      ≤ (UploadOperations registry transport attempt st ops
          isLast).session.currentContentLength ∧
    (UploadOperations registry transport attempt st ops isLast).nextAttempt
      ≤ attempt + 1 := by
  by_cases hterm : st.isLast
  · simp [UploadOperations, hterm]
  · cases hbuild : BuildUploadRequest registry st.version st.uploadUrl ops
        isLast st.currentContentLength with
    | error e => simp [UploadOperations, hterm, hbuild]
    | ok req =>
        cases htr : transport attempt with
        | success =>
            refine ⟨fun _ => ⟨req, rfl, ?_, ?_⟩, ?_, ?_, ?_⟩
            · obtain ⟨body, hb, hreq⟩ := buildUploadRequest_ok hbuild
              simp [UploadOperations, hterm, hbuild, htr, hreq,
                byteLength_append_spaces]
            · simp [UploadOperations, hterm, hbuild, htr]
            · intro msg hres
              simp [UploadOperations, hterm, hbuild, htr] at hres
            · simp [UploadOperations, hterm, hbuild, htr]
            · simp [UploadOperations, hterm, hbuild, htr]
        | failure msg =>
            refine ⟨fun hres => ?_, fun m _ => ?_, ?_, ?_⟩
            · simp [UploadOperations, hterm, hbuild, htr] at hres
            · simp [UploadOperations, hterm, hbuild, htr]
            · simp [UploadOperations, hterm, hbuild, htr]
            · simp [UploadOperations, hterm, hbuild, htr]

/-- Witness for C6: a failed transport leaves the fresh session unchanged
(resubmittable), the offset does not decrease, and one attempt was consumed. -/
theorem upload_step_invariants_witness :
    (UploadOperations testRegistry (fun _ => .failure "connection reset") 0
        initialSession [budgetOperation1] false).session = initialSession ∧
    initialSession.currentContentLength
      ≤ (UploadOperations testRegistry (fun _ => .failure "connection reset") 0
          initialSession [budgetOperation1] false).session.currentContentLength ∧
    (UploadOperations testRegistry (fun _ => .failure "connection reset") 0
        initialSession [budgetOperation1] false).nextAttempt ≤ 0 + 1 :=
  ⟨(upload_step_invariants testRegistry (fun _ => .failure "connection reset")
      0 initialSession [budgetOperation1] false).2.1 "connection reset"
      (by decide),
    (upload_step_invariants testRegistry (fun _ => .failure "connection reset")
      0 initialSession [budgetOperation1] false).2.2.1,
    (upload_step_invariants testRegistry (fun _ => .failure "connection reset")
      0 initialSession [budgetOperation1] false).2.2.2⟩

theorem dropToken_append : ∀ (l r : List Char), dropToken l (l ++ r) = some r
  | [], _ => rfl
  | c :: cs, r => by simp [dropToken, dropToken_append cs r]

theorem dropToken_self (l : List Char) : dropToken l l = some [] := by
  simpa using dropToken_append l []

theorem takeWhile_append_all (p : Char → Bool) (l r : List Char)
    (hl : ∀ c ∈ l, p c = true)
    (hr : ∀ c, r.head? = some c → p c = false) :
    (l ++ r).takeWhile p = l ∧ (l ++ r).dropWhile p = r := by
  induction l with
  | nil =>
      cases r with
      | nil => exact ⟨rfl, rfl⟩
      | cons c cs =>
          have hc := hr c rfl
          constructor
          · simp [List.takeWhile_cons, hc]
          · simp [List.dropWhile_cons, hc]
  | cons c cl ih =>
      have hc : p c = true := hl c (List.mem_cons_self c cl)
      obtain ⟨h1, h2⟩ := ih (fun x hx => hl x (List.mem_cons_of_mem c hx))
      constructor
      · simp [List.takeWhile_cons, hc, h1]
      · simp [List.dropWhile_cons, hc, h2]

theorem digitChar_isDigit {d : Nat} (h : d < 10) :
    (digitChar d).isDigit = true := by
  interval_cases d <;> decide

theorem charToDigit_digitChar {d : Nat} (h : d < 10) :
    charToDigit (digitChar d) = d := by
  interval_cases d <;> decide

theorem foldr_digits (ds : List Nat) (hds : ∀ d ∈ ds, d < 10) :
    ds.foldr (fun d acc => 10 * acc + charToDigit (digitChar d)) 0
      = Nat.ofDigits 10 ds := by
  induction ds with
  | nil => simp [Nat.ofDigits]
  | cons d rest ih =>
      simp only [List.foldr_cons, Nat.ofDigits_cons]
      rw [charToDigit_digitChar (hds d (List.mem_cons_self d rest)),
        ih (fun x hx => hds x (List.mem_cons_of_mem d hx))]
      omega

theorem natToDecimal_isDigit (n : Nat) :
    ∀ c ∈ natToDecimal n, c.isDigit = true := by
  intro c hc
  by_cases h : n = 0
  · simp [natToDecimal, h] at hc
    subst hc
    decide
  · simp only [natToDecimal, if_neg h, List.mem_map, List.mem_reverse] at hc
    obtain ⟨d, hd, rfl⟩ := hc
    exact digitChar_isDigit (Nat.digits_lt_base (by norm_num) hd)

theorem natToDecimal_ne_nil (n : Nat) : natToDecimal n ≠ [] := by
  by_cases h : n = 0
  · simp [natToDecimal, h]
  · simp [natToDecimal, h, Nat.digits_ne_nil_iff_ne_zero.mpr h]

theorem decimal_value (n : Nat) :
    (natToDecimal n).foldl (fun acc c => 10 * acc + charToDigit c) 0 = n := by
  by_cases h : n = 0
  · subst h
    decide
  · rw [natToDecimal, if_neg h, List.foldl_map, List.foldl_reverse]
    rw [foldr_digits (Nat.digits 10 n)
      (fun d hd => Nat.digits_lt_base (by norm_num) hd)]
    exact Nat.ofDigits_digits 10 n

theorem readNat_render (n : Nat) (r : List Char)
    (hr : ∀ c, r.head? = some c → c.isDigit = false) :
    readNat (natToDecimal n ++ r) = some (n, r) := by
  obtain ⟨ht, hd⟩ := takeWhile_append_all Char.isDigit (natToDecimal n) r
    (natToDecimal_isDigit n) hr
  have hne : (natToDecimal n).isEmpty = false := by
    cases hh : natToDecimal n with
    | nil => exact absurd hh (natToDecimal_ne_nil n)
    | cons a l => rfl
  simp only [readNat, ht, hd, hne]
  simp [decimal_value n]

theorem readNat_comma (n : Nat) (r : List Char) :
    readNat (natToDecimal n ++ (',' :: r)) = some (n, ',' :: r) := by
  refine readNat_render n _ (fun c hc => ?_)
  simp only [List.head?_cons, Option.some.injEq] at hc
  subst hc
  decide

theorem readUntilChar_append (stop : Char) :
    ∀ (l r : List Char), stop ∉ l →
    readUntilChar stop (l ++ stop :: r) = some (l, r)
  | [], r, _ => by simp [readUntilChar]
  | c :: cl, r, h => by
      have hc : ¬(c = stop) := fun hh => h (hh ▸ List.mem_cons_self c cl)
      simp [readUntilChar, hc,
        readUntilChar_append stop cl r (fun hm => h (List.mem_cons_of_mem c hm))]

/-- C7: `Dump` followed by `Load` reconstructs a session with identical
`current_content_length`, `is_last`, `upload_url` and version, through the
single-line serialized form: the dump contains exactly one newline, and it
is the final character.  (Precondition: the URL carries no single-quote and
no newline, the version tag no right brace and no newline — the characters
the flow-style rendering reserves.) -/
theorem dump_load_roundtrip (st : UploadSession)
    (hurl : ∀ c ∈ st.uploadUrl.data, c ≠ '\x27' ∧ c ≠ '\n')
    (hver : ∀ c ∈ st.version.data, c ≠ '\x7d' ∧ c ≠ '\n') :
    Load (Dump st) = some st ∧
    (Dump st).data.count '\n' = 1 ∧
    (Dump st).data.getLast? = some '\n' := by
  obtain ⟨url, n, b, ver⟩ := st
  simp only at hurl hver
  have hurlq : '\x27' ∉ url.data := fun hm => (hurl _ hm).1 rfl
  have hverb : '\x7d' ∉ ver.data := fun hm => (hver _ hm).1 rfl
  have cNat : '\n' ∉ natToDecimal n := fun hm => by
    have := natToDecimal_isDigit n '\n' hm
    exact absurd this (by decide)
  have cUrl : '\n' ∉ url.data := fun hm => (hurl _ hm).2 rfl
  have cVer : '\n' ∉ ver.data := fun hm => (hver _ hm).2 rfl
  have hft : (('f' : Char) = 't') = False :=
    eq_false (by decide : ¬(('f' : Char) = 't'))
  refine ⟨?_, ?_, ?_⟩
  · show loadChars (dumpChars ⟨url, n, b, ver⟩) = some ⟨url, n, b, ver⟩
    rw [dumpChars]
    cases b <;>
      simp [loadChars, Bind.bind, Option.bind, dropToken, readNat_comma,
        readBool, readUntilChar_append, hurlq, hverb, hft]
  · show (dumpChars ⟨url, n, b, ver⟩).count '\n' = 1
    rw [dumpChars]
    simp only [List.count_append]
    rw [List.count_eq_zero.mpr cNat, List.count_eq_zero.mpr cUrl,
      List.count_eq_zero.mpr cVer]
    cases b
    · decide
    · decide
  · show (dumpChars ⟨url, n, b, ver⟩).getLast? = some '\n'
    rw [dumpChars]
    simp only [List.getLast?_append]
    rw [show "\x7d\n".data.getLast? = some '\n' from by decide]
    simp

/-- Witness for C7: the test-suite's session — offset 0, not last, the
resolved URL `https://goo.gl/Xtaq83`, version tag `v201605`. -/
theorem dump_load_roundtrip_witness :
    Load (Dump initialSession) = some initialSession ∧
    (Dump initialSession).data.count '\n' = 1 ∧
    (Dump initialSession).data.getLast? = some '\n' :=
  dump_load_roundtrip initialSession (by decide) (by decide)

end AdWordsBatch
